import Mathlib

/-!
# InputDriver: the HAL callback table of the input host

A shallow embedding of `services/inputflinger/host/InputDriver.cpp`.

Conventions of the embedding.

* A C pointer that the code compares with `nullptr` or returns is an `Option`:
  `none` is the null pointer, `some x` a pointer to the object `x`. `new`
  never yields null, so a `new` expression is a `some`.
* A C string (`const char*` argument, `String8`) is its content, a `String`;
  the null C string is outside the model.  A `const char*` that a callback
  returns is an `Option String`, because null is one of its results.
* `int32_t` values and enum values are integers.  The only arithmetic is the
  narrowing of an integer stored into a `uint16_t` field, which keeps it
  modulo 65536.
* The visible effects of a callback (calls into the platform, log lines,
  `delete`) are returned as a list of `Event`s in program order.
* A callback that dereferences a pointer without a check returns `none` when the
  pointer is null (the dereference faults) and `some (result, events)` otherwise.
-/

set_option linter.unusedVariables false

/-- Address of the host object handed to every callback; no callback
dereferences it. -/
abbrev input_host_t := Nat

/-- Enum `input_bus_t` of the HAL header, by its integer value. -/
abbrev input_bus_t := Int

/-- Status code `status_t`; zero is success. -/
abbrev status_t := Int

/-- Enum `InputDeviceConfigurationFileType`, by its integer value. -/
abbrev InputDeviceConfigurationFileType := Int

namespace android

/-- Modelled from the spec: `android::PropertyMap` (`utils/PropertyMap.h`) is
not under src/.  The spec calls it "a loaded configuration file's key/value
table", so it is a list of key/value entries, looked up front to back. -/
structure PropertyMap where
  mProperties : List (String × String)
deriving DecidableEq, Repr

/-- Modelled from the spec: `PropertyMap::hasProperty`, not under src/: whether
some entry of the table has the key. -/
def PropertyMap.hasProperty (self : PropertyMap) (key : String) : Bool :=
  self.mProperties.any (fun kv => kv.1 == key)

/-- Modelled from the spec: `PropertyMap::tryGetProperty`, not under src/.  The
result is the returned flag and the content of the out-parameter after the call:
the value of the first entry with the key on success, the out-parameter as it
was on failure. -/
def PropertyMap.tryGetProperty (self : PropertyMap) (key : String) (outValue : String) :
    Bool × String :=
  match self.mProperties.find? (fun kv => kv.1 == key) with
  | some kv => (true, kv.2)
  | none => (false, outValue)

/-- Modelled from the spec: `InputDeviceIdentifier` (`input/InputDevice.h`) is
not under src/.  It has the fields the spec lists for a device identifier
("name, unique id, bus type, vendor/product/version ids"), which are the six
fields the source assigns.  The header declares `bus`, `vendor`, `product` and
`version` as `uint16_t`: they are integers here, and every store into them
goes through `uint16_t_of`. -/
structure InputDeviceIdentifier where
  name : String
  uniqueId : String
  bus : Int
  vendor : Int
  product : Int
  version : Int
deriving DecidableEq, Repr

end android

/-- `struct input_property_map`: a wrapper around a pointer to a
`PropertyMap`. -/
structure input_property_map where
  propertyMap : Option android.PropertyMap
deriving DecidableEq, Repr

/-- `struct input_property`: one key/value pair. -/
structure input_property where
  key : String
  value : String
deriving DecidableEq, Repr

/-- `struct input_device_identifier`. -/
structure input_device_identifier where
  name : String
  uniqueId : String
  bus : input_bus_t
  vendorId : Int
  productId : Int
  version : Int
deriving DecidableEq, Repr

/-- Type `input_device_definition_t`: only its name is declared; no callback
creates one. -/
structure input_device_definition_t where
  addr : Nat
deriving DecidableEq, Repr

/-- Type `input_report_definition_t`: only its name is declared. -/
structure input_report_definition_t where
  addr : Nat
deriving DecidableEq, Repr

/-- Type `input_device_handle_t`: only its name is declared. -/
structure input_device_handle_t where
  addr : Nat
deriving DecidableEq, Repr

/-- Type `input_report_t`: only its name is declared. -/
structure input_report_t where
  addr : Nat
deriving DecidableEq, Repr

namespace android

/-- The visible effects of the callbacks. -/
inductive Event where
  /-- A call of `getInputDeviceConfigurationFilePathByDeviceIdentifier`. -/
  | configurationFilePath (idi : InputDeviceIdentifier)
      (type : InputDeviceConfigurationFileType)
  /-- A call of `PropertyMap::load` on a file name. -/
  | load (filename : String)
  /-- A line logged by `ALOGD`. -/
  | ALOGD (message : String)
  /-- A line logged by `ALOGE`. -/
  | ALOGE (message : String)
  /-- The statement `delete` on an `input_property_map_t`. -/
  | delete_input_property_map (propMap : input_property_map)
  /-- The statement `delete` on an `input_property_t`. -/
  | delete_input_property (prop : input_property)
  /-- The statement `delete` on a `PropertyMap*` (a no-op on null). -/
  | delete_PropertyMap (propertyMap : Option PropertyMap)
deriving DecidableEq, Repr

/-- The platform functions and constants the callbacks use and src/ does not
define: the path lookup of `input/InputDevice.h` (it reads the file system),
its file-type constant, the loader `PropertyMap::load` (status and the pointer
it leaves in its out-parameter) and `input_open` of the HAL (status; the
module pointer is not modelled). -/
structure Platform where
  getInputDeviceConfigurationFilePathByDeviceIdentifier :
    InputDeviceIdentifier → InputDeviceConfigurationFileType → String
  INPUT_DEVICE_CONFIGURATION_FILE_TYPE_CONFIGURATION : InputDeviceConfigurationFileType
  load : String → status_t × Option PropertyMap
  input_open : String → Int

/-- The macro `INDENT2`. -/
def INDENT2 : String := "    "

/-- Class `InputDriver`; the member `mHal` is not modelled, nothing here reads
it. -/
structure InputDriver where
  mName : String
deriving DecidableEq, Repr

/-- The constructor `InputDriver::InputDriver(const char* name)`: `none` when
`LOG_ALWAYS_FATAL_IF` aborts because `input_open` failed. -/
def InputDriver.create (p : Platform) (name : String) : Option InputDriver :=
  let mName := name
  let err := p.input_open name
  if err != 0 then none else some { mName := mName }

/-- The method `InputDriver::dump(String8& result)`: the content of `result`
after the call.  `appendFormat` appends the format with `%s` replaced by the
argument. -/
def InputDriver.dump (self : InputDriver) (result : String) : String :=
  result ++ (INDENT2 ++ "HAL Input Driver (" ++ self.mName ++ ")\n")

/-- The callback `create_device_identifier`.  The initialiser list names
`name`, `productId`, `vendorId` and `uniqueId`; the line for `bus` is commented
out, so `bus` and `version` are value-initialised. -/
def create_device_identifier (host : input_host_t) (name : String) (product_id : Int)
    (vendor_id : Int) (bus : input_bus_t) (unique_id : String) :
    Option input_device_identifier :=
  let identifier : input_device_identifier :=
    { name := name
      productId := product_id
      vendorId := vendor_id
      bus := 0
      uniqueId := unique_id
      version := 0 }
  some identifier

/-- The callback `create_device_definition`. -/
def create_device_definition (host : input_host_t) : Option input_device_definition_t :=
  none

/-- The callback `create_input_report_definition`. -/
def create_input_report_definition (host : input_host_t) :
    Option input_report_definition_t :=
  none

/-- The callback `create_output_report_definition`. -/
def create_output_report_definition (host : input_host_t) :
    Option input_report_definition_t :=
  none

/-- The callback `register_device`. -/
def register_device (host : input_host_t) (id : Option input_device_identifier)
    (d : Option input_device_definition_t) : Option input_device_handle_t :=
  none

/-- The callback `input_allocate_report`. -/
def input_allocate_report (host : input_host_t) (r : Option input_report_definition_t) :
    Option input_report_t :=
  none

/-- The implicit conversion of an `int32_t` or enum value stored into a
`uint16_t` field: the value modulo 65536, in the range 0 to 65535. -/
def uint16_t_of (x : Int) : Int :=
  x % 65536

/-- The `InputDeviceIdentifier idi` that `input_get_device_property_map`
fills in field by field before it asks for the configuration file path.  The
two strings are copied; the four integers are narrowed to the `uint16_t`
fields they are assigned to. -/
def input_get_device_property_map_idi (id : input_device_identifier) :
    InputDeviceIdentifier :=
  { name := id.name
    uniqueId := id.uniqueId
    bus := uint16_t_of id.bus
    vendor := uint16_t_of id.vendorId
    product := uint16_t_of id.productId
    version := uint16_t_of id.version }

/-- The callback `input_get_device_property_map`.  It reads `id->name` first, so
a null `id` faults. -/
def input_get_device_property_map (p : Platform) (host : input_host_t)
    (id : Option input_device_identifier) :
    Option (Option input_property_map × List Event) :=
  match id with
  | none => none
  | some id =>
    let idi := input_get_device_property_map_idi id
    let configFile := p.getInputDeviceConfigurationFilePathByDeviceIdentifier idi
      p.INPUT_DEVICE_CONFIGURATION_FILE_TYPE_CONFIGURATION
    let called := Event.configurationFilePath idi
      p.INPUT_DEVICE_CONFIGURATION_FILE_TYPE_CONFIGURATION
    if configFile.isEmpty then
      some (none, [called, Event.ALOGD
        ("No input device configuration file found for device '" ++ idi.name ++ "'.")])
    else
      let propMap : input_property_map := { propertyMap := none }
      let loaded := p.load configFile
      let status := loaded.1
      let propMap := { propMap with propertyMap := loaded.2 }
      if status != 0 then
        some (none, [called, Event.load configFile, Event.ALOGE
          ("Error loading input device configuration file for device '" ++ idi.name ++
            "'. " ++ "Using default configuration."),
          Event.delete_input_property_map propMap])
      else
        some (some propMap, [called, Event.load configFile])

/-- The callback `input_get_device_property`.  For a non-null `map` it calls
through `map->propertyMap` without a check, so a wrapper with a null
`propertyMap` faults. -/
def input_get_device_property (host : input_host_t) (map : Option input_property_map)
    (key : String) : Option (Option input_property × List Event) :=
  let keyString := key
  match map with
  | some m =>
    match m.propertyMap with
    | none => none
    | some propertyMap =>
      if propertyMap.hasProperty keyString then
        let prop : input_property := { key := "", value := "" }
        let got := propertyMap.tryGetProperty keyString prop.value
        let prop := { prop with value := got.2 }
        if !got.1 then
          some (none, [Event.delete_input_property prop])
        else
          let prop := { prop with key := keyString }
          some (some prop, [])
      else
        some (none, [])
  | none => some (none, [])

/-- The callback `input_get_property_key`. -/
def input_get_property_key (host : input_host_t) (property : Option input_property) :
    Option String :=
  match property with
  | some property => some property.key
  | none => none

/-- The callback `input_get_property_value`. -/
def input_get_property_value (host : input_host_t) (property : Option input_property) :
    Option String :=
  match property with
  | some property => some property.value
  | none => none

/-- The callback `input_free_device_property`: the events of the call. -/
def input_free_device_property (host : input_host_t) (property : Option input_property) :
    List Event :=
  match property with
  | some property => [Event.delete_input_property property]
  | none => []

/-- The callback `input_free_device_property_map`: the events of the call. -/
def input_free_device_property_map (host : input_host_t) (map : Option input_property_map) :
    List Event :=
  match map with
  | some map => [Event.delete_PropertyMap map.propertyMap, Event.delete_input_property_map map]
  | none => []

/-! ## Sample inputs -/

/-- A platform with one configuration file, for the device of vendor 1, and one
unreadable file, for the device of vendor 2. -/
def samplePlatform : Platform :=
  { getInputDeviceConfigurationFilePathByDeviceIdentifier := fun idi _ =>
      if idi.vendor = 1 then "Vendor_0001.idc"
      else if idi.vendor = 2 then "Vendor_0002.idc" else ""
    INPUT_DEVICE_CONFIGURATION_FILE_TYPE_CONFIGURATION := 0
    load := fun filename =>
      if filename = "Vendor_0001.idc" then
        (0, some { mProperties := [("device.internal", "1")] })
      else (-2, none)
    input_open := fun name => if name = "evdev" then 0 else -2 }

/-- A property map with one entry. -/
def sampleMap : input_property_map :=
  { propertyMap := some { mProperties := [("device.internal", "1")] } }

/-- A device of vendor 1, whose configuration file loads. -/
def sampleDevice1 : input_device_identifier :=
  { name := "kbd", uniqueId := "u1", bus := 0, vendorId := 1, productId := 7, version := 0 }

/-- A device of vendor 2, whose configuration file does not load. -/
def sampleDevice2 : input_device_identifier :=
  { name := "pad", uniqueId := "u2", bus := 0, vendorId := 2, productId := 7, version := 0 }

/-- A device of vendor 3, which has no configuration file. -/
def sampleDevice3 : input_device_identifier :=
  { name := "pen", uniqueId := "u3", bus := 0, vendorId := 3, productId := 7, version := 0 }

end android

/-! ## Lemmas on the key/value table and on the runs of the callbacks -/

namespace android

/-- Table lookup on a list of entries, as the out-parameter form computes it. -/
theorem PropertyMap.tryGetProperty_eq (pm : PropertyMap) (key outValue : String) :
    pm.tryGetProperty key outValue =
      match pm.mProperties.lookup key with
      | some v => (true, v)
      | none => (false, outValue) := by
  obtain ⟨l⟩ := pm
  induction l with
  | nil => simp [PropertyMap.tryGetProperty]
  | cons kv l ih =>
    obtain ⟨a, b⟩ := kv
    by_cases h : a = key
    · subst h
      simp [PropertyMap.tryGetProperty, List.lookup]
    · have h1 : (a == key) = false := by simp [h]
      have h2 : (key == a) = false := by
        simp only [beq_eq_false_iff_ne, ne_eq]
        exact fun e => h e.symm
      simp only [PropertyMap.tryGetProperty] at ih
      simp only [PropertyMap.tryGetProperty, List.lookup, List.find?, h1, h2]
      exact ih

/-- A key is in the table exactly when the lookup finds a value for it. -/
theorem PropertyMap.hasProperty_eq (pm : PropertyMap) (key : String) :
    pm.hasProperty key = (pm.mProperties.lookup key).isSome := by
  obtain ⟨l⟩ := pm
  induction l with
  | nil => simp [PropertyMap.hasProperty]
  | cons kv l ih =>
    obtain ⟨a, b⟩ := kv
    by_cases h : a = key
    · subst h
      simp [PropertyMap.hasProperty, List.lookup]
    · have h1 : (a == key) = false := by simp [h]
      have h2 : (key == a) = false := by
        simp only [beq_eq_false_iff_ne, ne_eq]
        exact fun e => h e.symm
      simp only [PropertyMap.hasProperty] at ih
      simp only [PropertyMap.hasProperty, List.lookup, List.any, h1, h2, Bool.false_or]
      exact ih

/-- The result of `input_get_device_property` on a wrapper with a
`PropertyMap`, by table lookup. -/
theorem input_get_device_property_eq (host : input_host_t) (pm : PropertyMap)
    (key : String) :
    input_get_device_property host (some { propertyMap := some pm }) key =
      match pm.mProperties.lookup key with
      | some v => some (some { key := key, value := v }, [])
      | none => some (none, []) := by
  simp only [input_get_device_property, PropertyMap.hasProperty_eq,
    PropertyMap.tryGetProperty_eq]
  cases h : pm.mProperties.lookup key <;> simp

/-- A key has a value in the table exactly when it is the key of an entry. -/
theorem PropertyMap.lookup_isSome_iff_mem (pm : PropertyMap) (key : String) :
    (pm.mProperties.lookup key).isSome = true ↔ key ∈ pm.mProperties.map Prod.fst := by
  rw [← PropertyMap.hasProperty_eq]
  simp only [PropertyMap.hasProperty, List.any_eq_true, beq_iff_eq, List.mem_map]

/-- The shape of a run of `input_get_device_property_map`: it asks once for the
configuration file path, for the identifier it built from `id`, before
anything else. -/
theorem input_get_device_property_map_shape (p : Platform) (host : input_host_t)
    (id : input_device_identifier) :
    ∃ r rest, input_get_device_property_map p host (some id) =
        some (r, Event.configurationFilePath (input_get_device_property_map_idi id)
          p.INPUT_DEVICE_CONFIGURATION_FILE_TYPE_CONFIGURATION :: rest) ∧
      ∀ idi ty, Event.configurationFilePath idi ty ∉ rest := by
  simp only [input_get_device_property_map]
  split
  · exact ⟨_, _, rfl, by simp⟩
  · split
    · exact ⟨_, _, rfl, by simp⟩
    · exact ⟨_, _, rfl, by simp⟩

/-- The three ways `input_get_device_property_map` ends, by the configuration
file path and the status of the load. -/
theorem input_get_device_property_map_eq (p : Platform) (host : input_host_t)
    (id : input_device_identifier) :
    input_get_device_property_map p host (some id) =
      (let idi := input_get_device_property_map_idi id
       let ty := p.INPUT_DEVICE_CONFIGURATION_FILE_TYPE_CONFIGURATION
       let configFile := p.getInputDeviceConfigurationFilePathByDeviceIdentifier idi ty
       if configFile = "" then
         some (none, [Event.configurationFilePath idi ty, Event.ALOGD
           ("No input device configuration file found for device '" ++ idi.name ++ "'.")])
       else if (p.load configFile).1 = 0 then
         some (some { propertyMap := (p.load configFile).2 },
           [Event.configurationFilePath idi ty, Event.load configFile])
       else
         some (none, [Event.configurationFilePath idi ty, Event.load configFile,
           Event.ALOGE ("Error loading input device configuration file for device '" ++
             idi.name ++ "'. " ++ "Using default configuration."),
           Event.delete_input_property_map { propertyMap := (p.load configFile).2 }])) := by
  simp only [input_get_device_property_map, String.isEmpty_iff]
  split
  · rfl
  · by_cases h : (p.load (p.getInputDeviceConfigurationFilePathByDeviceIdentifier
        (input_get_device_property_map_idi id)
        p.INPUT_DEVICE_CONFIGURATION_FILE_TYPE_CONFIGURATION)).1 = 0
    · simp [h]
    · simp [h]

/-! ## The claims -/

/-- C1: for a non-null property map `m` whose `PropertyMap` is `pm` and every key
`k`, `input_get_device_property` returns a non-null property with key `k` and
the value the table holds for `k` when the table has `k` (it then holds a
value), and returns null when the table does not have `k`. -/
theorem input_get_device_property_spec (host : input_host_t) (m : input_property_map)
    (pm : PropertyMap) (k : String) (hm : m.propertyMap = some pm) :
    (k ∈ pm.mProperties.map Prod.fst → ∃ v, pm.mProperties.lookup k = some v) ∧
    (∀ v, pm.mProperties.lookup k = some v →
      input_get_device_property host (some m) k =
        some (some { key := k, value := v }, [])) ∧
    (k ∉ pm.mProperties.map Prod.fst →
      input_get_device_property host (some m) k = some (none, [])) := by
  obtain ⟨pm0⟩ := m
  simp only at hm
  subst hm
  rw [input_get_device_property_eq, ← PropertyMap.lookup_isSome_iff_mem]
  cases h : pm.mProperties.lookup k <;> simp

/-- Witness of C1: a present and an absent key of a one-entry table. -/
theorem input_get_device_property_spec_witness :
    sampleMap.propertyMap = some { mProperties := [("device.internal", "1")] } ∧
    input_get_device_property 0 (some sampleMap) "device.internal" =
      some (some { key := "device.internal", value := "1" }, []) ∧
    input_get_device_property 0 (some sampleMap) "keyboard.layout" = some (none, []) :=
  ⟨rfl,
   (input_get_device_property_spec 0 sampleMap _ "device.internal" rfl).2.1 "1" (by decide),
   (input_get_device_property_spec 0 sampleMap _ "keyboard.layout" rfl).2.2 (by decide)⟩

/-- C2: for every device identifier, `input_get_device_property_map` returns a
non-null property map exactly when the derived configuration file path is
non-empty and `PropertyMap::load` on it returns status 0, and the wrapper then
holds the `PropertyMap` the load produced.  With an empty path the loader is
never called and the result is null; with a non-zero status the wrapper is
deleted and the result is null as well. -/
theorem input_get_device_property_map_spec (p : Platform) (host : input_host_t)
    (id : input_device_identifier) :
    ∃ r t, input_get_device_property_map p host (some id) = some (r, t) ∧
      (r ≠ none ↔
        p.getInputDeviceConfigurationFilePathByDeviceIdentifier
            (input_get_device_property_map_idi id)
            p.INPUT_DEVICE_CONFIGURATION_FILE_TYPE_CONFIGURATION ≠ "" ∧
          (p.load (p.getInputDeviceConfigurationFilePathByDeviceIdentifier
            (input_get_device_property_map_idi id)
            p.INPUT_DEVICE_CONFIGURATION_FILE_TYPE_CONFIGURATION)).1 = 0) ∧
      (r ≠ none →
        r = some { propertyMap :=
          (p.load (p.getInputDeviceConfigurationFilePathByDeviceIdentifier
            (input_get_device_property_map_idi id)
            p.INPUT_DEVICE_CONFIGURATION_FILE_TYPE_CONFIGURATION)).2 }) ∧
      (p.getInputDeviceConfigurationFilePathByDeviceIdentifier
          (input_get_device_property_map_idi id)
          p.INPUT_DEVICE_CONFIGURATION_FILE_TYPE_CONFIGURATION = "" →
        r = none ∧ ∀ filename, Event.load filename ∉ t) ∧
      (p.getInputDeviceConfigurationFilePathByDeviceIdentifier
          (input_get_device_property_map_idi id)
          p.INPUT_DEVICE_CONFIGURATION_FILE_TYPE_CONFIGURATION ≠ "" →
        (p.load (p.getInputDeviceConfigurationFilePathByDeviceIdentifier
          (input_get_device_property_map_idi id)
          p.INPUT_DEVICE_CONFIGURATION_FILE_TYPE_CONFIGURATION)).1 ≠ 0 →
        r = none ∧ Event.delete_input_property_map { propertyMap :=
          (p.load (p.getInputDeviceConfigurationFilePathByDeviceIdentifier
            (input_get_device_property_map_idi id)
            p.INPUT_DEVICE_CONFIGURATION_FILE_TYPE_CONFIGURATION)).2 } ∈ t) := by
  rw [input_get_device_property_map_eq]
  simp only
  generalize p.getInputDeviceConfigurationFilePathByDeviceIdentifier
    (input_get_device_property_map_idi id)
    p.INPUT_DEVICE_CONFIGURATION_FILE_TYPE_CONFIGURATION = configFile
  by_cases h1 : configFile = ""
  · rw [if_pos h1]
    refine ⟨_, _, rfl, ?_⟩
    simp [h1]
  · by_cases h2 : (p.load configFile).1 = 0
    · rw [if_neg h1, if_pos h2]
      refine ⟨_, _, rfl, ?_⟩
      simp [h1, h2]
    · rw [if_neg h1, if_neg h2]
      refine ⟨_, _, rfl, ?_⟩
      simp [h1, h2]

/-- Witness of C2: the device whose file loads gets a non-null map, the two
others get null. -/
theorem input_get_device_property_map_spec_witness :
    (∃ r t, input_get_device_property_map samplePlatform 0 (some sampleDevice1) = some (r, t) ∧
      r = some sampleMap) ∧
    (∃ r t, input_get_device_property_map samplePlatform 0 (some sampleDevice2) = some (r, t) ∧
      r = none) ∧
    (∃ r t, input_get_device_property_map samplePlatform 0 (some sampleDevice3) = some (r, t) ∧
      r = none) := by
  refine ⟨?_, ?_, ?_⟩
  · obtain ⟨r, t, h, h1, h2, -, -⟩ := input_get_device_property_map_spec samplePlatform 0
      sampleDevice1
    exact ⟨r, t, h, h2 (h1.2 ⟨by decide, by decide⟩)⟩
  · obtain ⟨r, t, h, -, -, -, h4⟩ := input_get_device_property_map_spec samplePlatform 0
      sampleDevice2
    exact ⟨r, t, h, (h4 (by decide) (by decide)).1⟩
  · obtain ⟨r, t, h, -, -, h3, -⟩ := input_get_device_property_map_spec samplePlatform 0
      sampleDevice3
    exact ⟨r, t, h, (h3 (by decide)).1⟩

/-- C3, evaluated at bus 1: the identifier created for bus 1 records bus 0, and
the property-map lookup made with it asks for the configuration file path of an
`InputDeviceIdentifier` with bus 0. -/
theorem create_device_identifier_bus_not_recorded :
    create_device_identifier 0 "kbd" 7 1 1 "u1" =
      some { name := "kbd", uniqueId := "u1", bus := 0, vendorId := 1, productId := 7,
             version := 0 } ∧
    (create_device_identifier 0 "kbd" 7 1 1 "u1").map (fun id => id.bus) ≠ some 1 ∧
    (input_get_device_property_map samplePlatform 0
        (create_device_identifier 0 "kbd" 7 1 1 "u1")).map (fun out => out.2.head?) =
      some (some (Event.configurationFilePath
        { name := "kbd", uniqueId := "u1", bus := 0, vendor := 1, product := 7, version := 0 }
        0)) := by
  refine ⟨rfl, by decide, ?_⟩
  rw [show create_device_identifier 0 "kbd" 7 1 1 "u1" = some sampleDevice1 from rfl,
    input_get_device_property_map_eq]
  decide

/-- C4, refuted as stated: for the vendor id 65537 the identifier stores 65537,
but `input_get_device_property_map` asks for the configuration file path of an
`InputDeviceIdentifier` with vendor 1 (and gets the map of vendor 1), not with
vendor 65537. -/
theorem create_device_identifier_fields_counterexample :
    create_device_identifier 0 "kbd" 7 65537 0 "u1" =
      some { name := "kbd", uniqueId := "u1", bus := 0, vendorId := 65537, productId := 7,
             version := 0 } ∧
    input_get_device_property_map samplePlatform 0
        (create_device_identifier 0 "kbd" 7 65537 0 "u1") =
      some (some sampleMap,
        [Event.configurationFilePath
            { name := "kbd", uniqueId := "u1", bus := 0, vendor := 1, product := 7,
              version := 0 } 0,
          Event.load "Vendor_0001.idc"]) ∧
    ¬ ∃ r idi rest, input_get_device_property_map samplePlatform 0
          (create_device_identifier 0 "kbd" 7 65537 0 "u1") =
        some (r, Event.configurationFilePath idi 0 :: rest) ∧ idi.vendor = 65537 := by
  have run : input_get_device_property_map samplePlatform 0
        (create_device_identifier 0 "kbd" 7 65537 0 "u1") =
      some (some sampleMap,
        [Event.configurationFilePath
            { name := "kbd", uniqueId := "u1", bus := 0, vendor := 1, product := 7,
              version := 0 } 0,
          Event.load "Vendor_0001.idc"]) := by
    rw [show create_device_identifier 0 "kbd" 7 65537 0 "u1" =
      some { name := "kbd", uniqueId := "u1", bus := 0, vendorId := 65537, productId := 7,
             version := 0 } from rfl, input_get_device_property_map_eq]
    decide
  refine ⟨rfl, run, ?_⟩
  rintro ⟨r, idi, rest, h, hv⟩
  rw [run] at h
  simp only [Option.some.injEq, Prod.mk.injEq, List.cons.injEq, Event.configurationFilePath.injEq]
    at h
  rw [← h.2.1.1] at hv
  exact absurd hv (by decide)

/-- C4, amended: `create_device_identifier` returns a non-null identifier whose
`name`, `uniqueId`, `vendorId` and `productId` are the `name`, `unique_id`,
`vendor_id` and `product_id` arguments (not swapped), and
`input_get_device_property_map` asks for the configuration file path of an
`InputDeviceIdentifier`, and of no other, whose name and unique id are these
strings and whose vendor and product are `vendor_id` and `product_id` modulo
65536: unchanged whenever the id lies in 0 to 65535. -/
theorem create_device_identifier_fields_uint16 (p : Platform) (host : input_host_t)
    (name : String) (product_id vendor_id : Int) (bus : input_bus_t) (unique_id : String) :
    ∃ id, create_device_identifier host name product_id vendor_id bus unique_id = some id ∧
      id.name = name ∧ id.uniqueId = unique_id ∧ id.vendorId = vendor_id ∧
      id.productId = product_id ∧
      ∃ r idi rest, input_get_device_property_map p host (some id) =
          some (r, Event.configurationFilePath idi
            p.INPUT_DEVICE_CONFIGURATION_FILE_TYPE_CONFIGURATION :: rest) ∧
        (∀ idi2 ty, Event.configurationFilePath idi2 ty ∉ rest) ∧
        idi.name = name ∧ idi.uniqueId = unique_id ∧
        idi.vendor = vendor_id % 65536 ∧ idi.product = product_id % 65536 ∧
        (0 ≤ vendor_id ∧ vendor_id < 65536 → idi.vendor = vendor_id) ∧
        (0 ≤ product_id ∧ product_id < 65536 → idi.product = product_id) := by
  refine ⟨_, rfl, rfl, rfl, rfl, rfl, ?_⟩
  obtain ⟨r, rest, h, hrest⟩ := input_get_device_property_map_shape p host
    { name := name, uniqueId := unique_id, bus := 0, vendorId := vendor_id,
      productId := product_id, version := 0 }
  refine ⟨r, _, rest, h, hrest, rfl, rfl, rfl, rfl, ?_, ?_⟩
  · intro hv
    exact Int.emod_eq_of_lt hv.1 hv.2
  · intro hp
    exact Int.emod_eq_of_lt hp.1 hp.2

/-- Witness of the amended C4: a device with 16-bit ids 1 and 7 has these very
ids in the identifier the configuration file path is asked for. -/
theorem create_device_identifier_fields_uint16_witness :
    (0 : Int) ≤ 1 ∧ (1 : Int) < 65536 ∧ (0 : Int) ≤ 7 ∧ (7 : Int) < 65536 ∧
    ∃ id, create_device_identifier 0 "kbd" 7 1 1 "u1" = some id ∧
      ∃ r idi rest, input_get_device_property_map samplePlatform 0 (some id) =
          some (r, Event.configurationFilePath idi 0 :: rest) ∧
        idi.name = "kbd" ∧ idi.uniqueId = "u1" ∧ idi.vendor = 1 ∧ idi.product = 7 := by
  refine ⟨by decide, by decide, by decide, by decide, ?_⟩
  obtain ⟨id, hid, -, -, -, -, r, idi, rest, h, -, hn, hu, -, -, hv, hp⟩ :=
    create_device_identifier_fields_uint16 samplePlatform 0 "kbd" 7 1 1 "u1"
  exact ⟨id, hid, r, idi, rest, h, hn, hu, hv ⟨by decide, by decide⟩,
    hp ⟨by decide, by decide⟩⟩

/-- C9: whatever the arguments, the identifier `create_device_identifier`
returns has version 0 and bus 0, and `input_get_device_property_map` on it asks
for the configuration file path of an `InputDeviceIdentifier` with version 0
(and bus 0), and of no other. -/
theorem create_device_identifier_version_bus_zero (p : Platform) (host : input_host_t)
    (name : String) (product_id vendor_id : Int) (bus : input_bus_t) (unique_id : String) :
    ∃ id, create_device_identifier host name product_id vendor_id bus unique_id = some id ∧
      id.version = 0 ∧ id.bus = 0 ∧
      ∃ r idi rest, input_get_device_property_map p host (some id) =
          some (r, Event.configurationFilePath idi
            p.INPUT_DEVICE_CONFIGURATION_FILE_TYPE_CONFIGURATION :: rest) ∧
        (∀ idi2 ty, Event.configurationFilePath idi2 ty ∉ rest) ∧
        idi.version = 0 ∧ idi.bus = 0 := by
  refine ⟨_, rfl, rfl, rfl, ?_⟩
  obtain ⟨r, rest, h, hrest⟩ := input_get_device_property_map_shape p host
    { name := name, uniqueId := unique_id, bus := 0, vendorId := vendor_id,
      productId := product_id, version := 0 }
  exact ⟨r, _, rest, h, hrest, rfl, rfl⟩

/-- C5: when the table of the map's `PropertyMap` holds the value `v` for the
key `k`, the property `input_get_device_property` returns for `k` reads back
`k` through `input_get_property_key` and `v` through
`input_get_property_value`. -/
theorem input_get_property_key_value_roundtrip (host : input_host_t)
    (m : input_property_map) (pm : PropertyMap) (k v : String)
    (hm : m.propertyMap = some pm) (hv : pm.mProperties.lookup k = some v) :
    ∃ property t, input_get_device_property host (some m) k = some (property, t) ∧
      input_get_property_key host property = some k ∧
      input_get_property_value host property = some v := by
  obtain ⟨pm0⟩ := m
  simp only at hm
  subst hm
  rw [input_get_device_property_eq, hv]
  exact ⟨_, _, rfl, rfl, rfl⟩

/-- Witness of C5: the one entry of the sample table reads back. -/
theorem input_get_property_key_value_roundtrip_witness :
    sampleMap.propertyMap = some { mProperties := [("device.internal", "1")] } ∧
    List.lookup "device.internal" [("device.internal", "1")] = some "1" ∧
    ∃ property t,
      input_get_device_property 0 (some sampleMap) "device.internal" = some (property, t) ∧
      input_get_property_key 0 property = some "device.internal" ∧
      input_get_property_value 0 property = some "1" :=
  ⟨rfl, by decide,
   input_get_property_key_value_roundtrip 0 sampleMap _ "device.internal" "1" rfl (by decide)⟩

/-- C6: `input_get_device_property` on a null map returns null, for every key;
`input_get_property_key` and `input_get_property_value` return null exactly
when the property is null; `input_free_device_property` and
`input_free_device_property_map` on null do nothing. -/
theorem null_propagates (host : input_host_t) (key : String)
    (property : Option input_property) :
    input_get_device_property host none key = some (none, []) ∧
    (input_get_property_key host property = none ↔ property = none) ∧
    (input_get_property_value host property = none ↔ property = none) ∧
    input_free_device_property host none = [] ∧
    input_free_device_property_map host none = [] := by
  refine ⟨rfl, ?_, ?_, rfl, rfl⟩
  · cases property <;> simp [input_get_property_key]
  · cases property <;> simp [input_get_property_value]

/-- C7: `create_device_definition`, `create_input_report_definition`,
`create_output_report_definition`, `register_device` and
`input_allocate_report` return null on every input; `register_device` does so
also for an identifier that `create_device_identifier` produced. -/
theorem stubs_return_null (host : input_host_t) (id : Option input_device_identifier)
    (d : Option input_device_definition_t) (r : Option input_report_definition_t)
    (name : String) (product_id vendor_id : Int) (bus : input_bus_t) (unique_id : String) :
    create_device_definition host = none ∧
    create_input_report_definition host = none ∧
    create_output_report_definition host = none ∧
    register_device host id d = none ∧
    input_allocate_report host r = none ∧
    (create_device_identifier host name product_id vendor_id bus unique_id).isSome = true ∧
    register_device host
      (create_device_identifier host name product_id vendor_id bus unique_id) d = none :=
  ⟨rfl, rfl, rfl, rfl, rfl, rfl, rfl⟩

/-- C8: for every `PropertyMap` and key, if `hasProperty` is true then
`tryGetProperty` succeeds; so `input_get_device_property` on a non-null map
never deletes a property (its run has no events), and it returns null only
when the key is absent. -/
theorem input_get_device_property_delete_unreachable (host : input_host_t)
    (m : input_property_map) (pm : PropertyMap) (key outValue : String)
    (hm : m.propertyMap = some pm) :
    (pm.hasProperty key = true → (pm.tryGetProperty key outValue).1 = true) ∧
    ∃ r, input_get_device_property host (some m) key = some (r, []) ∧
      (r = none → pm.hasProperty key = false) := by
  obtain ⟨pm0⟩ := m
  simp only at hm
  subst hm
  rw [input_get_device_property_eq, PropertyMap.tryGetProperty_eq,
    PropertyMap.hasProperty_eq]
  cases h : pm.mProperties.lookup key <;> simp

/-- Witness of C8: the sample table has its key, the lookup succeeds and
nothing is deleted. -/
theorem input_get_device_property_delete_unreachable_witness :
    sampleMap.propertyMap = some { mProperties := [("device.internal", "1")] } ∧
    (PropertyMap.tryGetProperty { mProperties := [("device.internal", "1")] }
      "device.internal" "").1 = true ∧
    ∃ r, input_get_device_property 0 (some sampleMap) "device.internal" = some (r, []) :=
  have h := input_get_device_property_delete_unreachable 0 sampleMap
    { mProperties := [("device.internal", "1")] } "device.internal" "" rfl
  ⟨rfl, h.1 (by decide), h.2.imp fun _ hr => hr.1⟩

/-- C10: for a driver constructed with the name `n` and any prior content `r`
of the result, `dump` leaves `r` followed by four spaces, `HAL Input Driver (`,
`n`, `)` and a newline, and nothing else. -/
theorem dump_appends (p : Platform) (n r : String) (driver : InputDriver)
    (h : InputDriver.create p n = some driver) :
    driver.dump r = r ++ "    " ++ "HAL Input Driver (" ++ n ++ ")" ++ "\n" ∧
    (driver.dump r).data =
      r.data ++ (List.replicate 4 ' ' ++ "HAL Input Driver (".data ++ n.data ++ [')', '\n']) := by
  have hn : driver.mName = n := by
    simp only [InputDriver.create] at h
    split at h
    · exact absurd h (by simp)
    · rw [← Option.some.inj h]
  have e : driver.dump r = r ++ "    " ++ "HAL Input Driver (" ++ n ++ ")" ++ "\n" := by
    simp only [InputDriver.dump, INDENT2, hn, String.append_assoc]
    rfl
  refine ⟨e, ?_⟩
  rw [e]
  simp only [String.data_append, List.append_assoc]
  rfl

/-- Witness of C10: the driver `evdev` dumped after a header line. -/
theorem dump_appends_witness :
    InputDriver.create samplePlatform "evdev" = some { mName := "evdev" } ∧
    InputDriver.dump { mName := "evdev" } "Input Drivers:\n" =
      "Input Drivers:\n    HAL Input Driver (evdev)\n" :=
  ⟨by decide,
   (dump_appends samplePlatform "evdev" "Input Drivers:\n" { mName := "evdev" }
      (by decide)).1.trans (by decide)⟩

end android
